import Mathlib

/-!
Verification model of `src/core/async_work_queue.cc` (class
`nvidia::inferenceserver::AsyncWorkQueue`): a process-wide worker pool with a
blocking ready queue of zero-argument tasks (`task_queue_`, a
`SyncQueue<std::function<void(void)>>`) and a mutex-protected deque of
"bundled" one-argument tasks (`bundled_task_queue_`).

Shallow embedding conventions:
1. A zero-argument callable (`std::function<void(void)>`) is opaque; we model
   it by an identifier `Task := Nat`.  A ready-queue item is
   `Option Task`: `none` models a null `std::function` (`nullptr`), the value
   the destructor pushes as the shutdown sentinel and the value the worker
   loop compares against with `task != nullptr`.
2. A bundled callable (`std::function<void(size_t)>`) is opaque except that,
   by the documented contract, it calls `AddTask` internally; we model it as
   an identifier together with the list of ready items it would enqueue (in
   order) when invoked with a given fan-out argument.
3. The thread objects in `worker_threads_` are opaque OS resources; the code
   only ever reads `worker_threads_.size()`, so the state keeps the count.
4. Operations are state transformers on the singleton's fields; the split
   pass is instrumented to also report its invocation log (which bundled task
   was called, with which fan-out argument), which is exactly the sequence of
   calls `local_bundled_task_queue.front()(thread_per_task)` it performs.
-/

namespace InferenceServer

/-- Status codes used by `async_work_queue.cc`: `Status::Success` and the two
error constructors that appear in the source. -/
inductive StatusCode where
  | SUCCESS
  | INVALID_ARG
  | UNAVAILABLE
deriving DecidableEq, Repr

/-- The `Status` value type: a code and a message, as built by
`Status(Status::Code::..., "...")`. -/
structure Status where
  code : StatusCode
  msg : String
deriving DecidableEq, Repr

/-- The distinguished success value `Status::Success`. -/
def Status.Success : Status := { code := StatusCode.SUCCESS, msg := "" }

/-- Identifier of an opaque zero-argument callable. -/
abbrev Task := Nat

/-- A ready-queue item: a `std::function<void(void)>` that may be null
(`none`), as pushed by the destructor for shutdown. -/
abbrev ReadyItem := Option Task

/-- A bundled task: an opaque `std::function<void(size_t)>` identified by
`id`; `gen fan_out` is the ordered list of ready items the callable passes to
`AddTask` when invoked with argument `fan_out` (the callable is documented to
"properly set and assign the subtasks by calling AddTask"). -/
structure BundledTask where
  id : Nat
  gen : Nat → List ReadyItem

/-- The fields of the `AsyncWorkQueue` singleton: `worker_threads_` (kept as
its size, the only thing the code reads of it), `task_queue_` (FIFO, front at
the head) and `bundled_task_queue_` (FIFO, front at the head).  The mutexes
`mtx_` and `init_mtx` guard critical sections and carry no data; the
sequential model executes each critical section atomically. -/
structure AsyncWorkQueue where
  worker_threads : Nat
  task_queue : List ReadyItem
  bundled_task_queue : List BundledTask

/-- The singleton state before any call: no workers, both queues empty. -/
def AsyncWorkQueue.initial : AsyncWorkQueue :=
  { worker_threads := 0, task_queue := [], bundled_task_queue := [] }

/-- Model of `AsyncWorkQueue::Initialize(size_t worker_count)`: reject
`worker_count < 1` with `INVALID_ARG`; otherwise, under `init_mtx`, spawn
`worker_count` threads only when none exist yet; always return
`Status::Success` in that branch. -/
def Initialize (worker_count : Nat) (s : AsyncWorkQueue) :
    Status × AsyncWorkQueue :=
  if worker_count < 1 then
    ({ code := StatusCode.INVALID_ARG,
       msg := "Async work queue must be initialized with positive worker_count" },
     s)
  else if s.worker_threads = 0 then
    (Status.Success, { s with worker_threads := worker_count })
  else
    (Status.Success, s)

/-- Model of `AsyncWorkQueue::WorkerCount()`: the size of `worker_threads_`. -/
def WorkerCount (s : AsyncWorkQueue) : Nat :=
  s.worker_threads

/-- Model of `AsyncWorkQueue::AddTask`: `UNAVAILABLE` when no workers exist,
otherwise `Put` the (possibly null) callable at the back of `task_queue_`. -/
def AddTask (task : ReadyItem) (s : AsyncWorkQueue) :
    Status × AsyncWorkQueue :=
  if s.worker_threads = 0 then
    ({ code := StatusCode.UNAVAILABLE,
       msg := "Async work queue must be initialized before adding task" },
     s)
  else
    (Status.Success, { s with task_queue := s.task_queue ++ [task] })

/-- Effect of invoking a bundled callable with argument `fan_out`: it performs
its `AddTask` calls in order on the current state. -/
def invokeBundled (b : BundledTask) (fan_out : Nat) (s : AsyncWorkQueue) :
    AsyncWorkQueue :=
  (b.gen fan_out).foldl (fun st item => (AddTask item st).2) s

/-- Result of a split pass: the state after it and its invocation log, the
ordered list of calls `front()(thread_per_task)` as pairs
`(bundled task id, fan-out argument)`. -/
structure SplitResult where
  state : AsyncWorkQueue
  invocations : List (Nat × Nat)

/-- Model of `AsyncWorkQueue::SplitBundledTasks()`.  Under `mtx_`, swap
`bundled_task_queue_` into a local deque only when it is non-empty.  Then, if
the local deque is non-empty, compute
`thread_per_task = max(1, worker_threads_.size() / local.size())` and invoke
each local bundled task front-to-back with that argument. -/
def SplitBundledTasks (s : AsyncWorkQueue) : SplitResult :=
  let local_bundled_task_queue :=
    if s.bundled_task_queue.isEmpty then [] else s.bundled_task_queue
  let s1 :=
    if s.bundled_task_queue.isEmpty then s
    else { s with bundled_task_queue := [] }
  if local_bundled_task_queue.isEmpty then
    { state := s1, invocations := [] }
  else
    let thread_per_task :=
      max 1 (s1.worker_threads / local_bundled_task_queue.length)
    { state :=
        local_bundled_task_queue.foldl
          (fun st b => invokeBundled b thread_per_task st) s1,
      invocations :=
        local_bundled_task_queue.map (fun b => (b.id, thread_per_task)) }

/-- Result of `AddBundledTask`: status, final state, whether the call
triggered a split pass, and that split pass's invocation log (empty when no
split was triggered). -/
structure AddBundledResult where
  status : Status
  state : AsyncWorkQueue
  split_done : Bool
  invocations : List (Nat × Nat)

/-- Model of `AsyncWorkQueue::AddBundledTask`: `UNAVAILABLE` when no workers
exist; otherwise append `task` to `bundled_task_queue_` under `mtx_`, then
call `SplitBundledTasks` if and only if `task_queue_.Empty()` is observed. -/
def AddBundledTask (task : BundledTask) (s : AsyncWorkQueue) :
    AddBundledResult :=
  if s.worker_threads = 0 then
    { status :=
        { code := StatusCode.UNAVAILABLE,
          msg := "Async work queue must be initialized before adding task" },
      state := s, split_done := false, invocations := [] }
  else
    let s1 := { s with bundled_task_queue := s.bundled_task_queue ++ [task] }
    if s1.task_queue.isEmpty then
      let r := SplitBundledTasks s1
      { status := Status.Success, state := r.state, split_done := true,
        invocations := r.invocations }
    else
      { status := Status.Success, state := s1, split_done := false,
        invocations := [] }

/-- Model of the destructor `AsyncWorkQueue::~AsyncWorkQueue`: the loop
`for (cnt = 0; cnt < worker_threads_.size(); cnt++) task_queue_.Put(nullptr)`
pushes one null sentinel per worker thread onto the ready queue.  The
subsequent `join` calls wait on OS threads and change no modelled state. -/
def destructor (s : AsyncWorkQueue) : AsyncWorkQueue :=
  { s with
    task_queue := s.task_queue ++ List.replicate s.worker_threads none }

/-- Model of one worker thread running `AsyncWorkQueue::WorkThread` on the
shared state, as a fuel-bounded sequential trace: each iteration attempts a
split pass when `task_queue_.Empty()` is observed, then `Get`s the front
item; a non-null item is executed (its id is recorded in the returned list)
and the loop continues, a null item (`task == nullptr`) breaks the loop.  An
empty queue after the split models the worker blocked in `Get` with no
producer left in the trace; fuel 0 models an unfinished trace. -/
def WorkThread : Nat → AsyncWorkQueue → List Task × AsyncWorkQueue
  | 0, s => ([], s)
  | Nat.succ fuel, s =>
    let s1 := if s.task_queue.isEmpty then (SplitBundledTasks s).state else s
    match s1.task_queue with
    | [] => ([], s1)
    | none :: rest => ([], { s1 with task_queue := rest })
    | some t :: rest =>
      let r := WorkThread fuel { s1 with task_queue := rest }
      (t :: r.1, r.2)

/-!
Interleaving model of the bundled-task path, for the race-freedom property.
Threads interact with `bundled_task_queue_` only inside two critical sections
of `mtx_`: the append in `AddBundledTask` and the conditional swap in
`SplitBundledTasks`.  After a swap the swapping thread invokes the tasks of
its own stack-local deque outside the lock.  The model makes each critical
section (and each single invocation) one atomic step and lets any number of
producer and worker threads interleave them arbitrarily.  Bundled tasks are
identified by `Nat`; each `AddBundledTask` call moves a fresh closure object
into the queue, so an enqueue step requires an id never enqueued before
(recorded in the ghost field `enqueued`).
-/

/-- Shared-plus-local state of the bundled-task path under concurrency:
`bundle` is the shared `bundled_task_queue_`, `locals` the stack-local deques
of the split passes currently in progress (newest first), `invoked` the log
of bundled-task invocations performed so far (any thread), and `enqueued` the
ghost list of all ids ever enqueued. -/
structure ConcState where
  bundle : List Nat
  locals : List (List Nat)
  invoked : List Nat
  enqueued : List Nat

/-- The initial concurrent state: nothing enqueued, no split pass running. -/
def ConcState.init : ConcState :=
  { bundle := [], locals := [], invoked := [], enqueued := [] }

/-- One atomic step of some thread on the bundled-task path.
`addBundled` is the locked append in `AddBundledTask` (a fresh closure
object).  `swapNonempty` is the locked conditional swap in
`SplitBundledTasks` when it finds the queue non-empty; a split pass finding
it empty changes nothing and needs no step.  `invokeFront` is one iteration
of some split pass's invocation loop: pop the front of that pass's local
deque and call it. -/
inductive ConcStep : ConcState → ConcState → Prop
  | addBundled (s : ConcState) (t : Nat) (hfresh : t ∉ s.enqueued) :
      ConcStep s
        { bundle := s.bundle ++ [t], locals := s.locals,
          invoked := s.invoked, enqueued := s.enqueued ++ [t] }
  | swapNonempty (s : ConcState) (h : s.bundle ≠ []) :
      ConcStep s
        { bundle := [], locals := s.bundle :: s.locals,
          invoked := s.invoked, enqueued := s.enqueued }
  | invokeFront (s : ConcState) (L1 L2 : List (List Nat)) (t : Nat)
      (l : List Nat) (h : s.locals = L1 ++ (t :: l) :: L2) :
      ConcStep s
        { bundle := s.bundle, locals := L1 ++ l :: L2,
          invoked := s.invoked ++ [t], enqueued := s.enqueued }

/-- The states reachable from the initial state by any interleaving. -/
def ConcReachable (s : ConcState) : Prop :=
  Relation.ReflTransGen ConcStep ConcState.init s

/-- Number of copies of id `t` currently alive anywhere on the bundled-task
path: in the shared queue, in some split pass's local deque, or already
invoked. -/
def occ (s : ConcState) (t : Nat) : Nat :=
  (s.bundle ++ s.locals.flatten ++ s.invoked).count t

/-- The race-freedom invariant: every id occurs on the path at most as often
as it was enqueued, and each id is enqueued at most once. -/
def ConcInv (s : ConcState) : Prop :=
  ∀ t : Nat, occ s t ≤ s.enqueued.count t ∧ s.enqueued.count t ≤ 1

lemma concInv_init : ConcInv ConcState.init := by
  intro t
  simp [ConcState.init, occ]

lemma concInv_step {s s' : ConcState} (hinv : ConcInv s)
    (hstep : ConcStep s s') : ConcInv s' := by
  cases hstep with
  | addBundled t hfresh =>
    intro u
    have hu := hinv u
    have henq : s.enqueued.count t = 0 := List.count_eq_zero.mpr hfresh
    unfold occ at hu ⊢
    rcases eq_or_ne u t with rfl | hne
    · simp [List.count_append, List.count_cons] at hu ⊢
      omega
    · simp [List.count_append, List.count_cons, hne, hne.symm] at hu ⊢
      omega
  | swapNonempty h =>
    intro u
    have hu := hinv u
    unfold occ at hu ⊢
    simp [List.count_append, List.flatten_cons] at hu ⊢
    omega
  | invokeFront L1 L2 t l hloc =>
    intro u
    have hu := hinv u
    unfold occ at hu ⊢
    rw [hloc] at hu
    rcases eq_or_ne u t with rfl | hne
    · simp [List.count_append, List.flatten_append, List.flatten_cons,
        List.count_cons] at hu ⊢
      omega
    · simp [List.count_append, List.flatten_append, List.flatten_cons,
        List.count_cons, hne, hne.symm] at hu ⊢
      omega

lemma concInv_reachable {s : ConcState} (h : ConcReachable s) : ConcInv s := by
  induction h with
  | refl => exact concInv_init
  | tail _ hstep ih => exact concInv_step ih hstep

/-! Helper lemmas about the sequential model. -/

lemma AddTask_state_bundled (tk : ReadyItem) (st : AsyncWorkQueue) :
    (AddTask tk st).2.bundled_task_queue = st.bundled_task_queue := by
  unfold AddTask
  split <;> rfl

lemma foldl_addTask_bundled (L : List ReadyItem) (st : AsyncWorkQueue) :
    (L.foldl (fun st item => (AddTask item st).2) st).bundled_task_queue =
      st.bundled_task_queue := by
  induction L generalizing st with
  | nil => rfl
  | cons a L ih => rw [List.foldl_cons, ih, AddTask_state_bundled]

lemma invokeBundled_bundled (b : BundledTask) (f : Nat) (st : AsyncWorkQueue) :
    (invokeBundled b f st).bundled_task_queue = st.bundled_task_queue :=
  foldl_addTask_bundled (b.gen f) st

lemma foldl_invokeBundled_bundled (L : List BundledTask) (f : Nat)
    (st : AsyncWorkQueue) :
    (L.foldl (fun st b => invokeBundled b f st) st).bundled_task_queue =
      st.bundled_task_queue := by
  induction L generalizing st with
  | nil => rfl
  | cons b L ih => rw [List.foldl_cons, ih, invokeBundled_bundled]

/-! The claims. -/

/-- C1: for every split pass that obtains a non-empty local list of `k`
bundled tasks while the dispatcher owns `N` worker threads, the fan-out
argument passed to every one of those `k` bundled tasks equals
`max 1 (N / k)` with floor division; in particular it is at least 1, even
when `k > N`. -/
theorem split_fan_out (s : AsyncWorkQueue) (h : s.bundled_task_queue ≠ []) :
    (SplitBundledTasks s).invocations =
      s.bundled_task_queue.map
        (fun b =>
          (b.id, max 1 (s.worker_threads / s.bundled_task_queue.length))) ∧
    ∀ p ∈ (SplitBundledTasks s).invocations,
      p.2 = max 1 (s.worker_threads / s.bundled_task_queue.length) ∧
      1 ≤ p.2 := by
  have he : s.bundled_task_queue.isEmpty = false := by simp [h]
  refine ⟨by simp [SplitBundledTasks, he], ?_⟩
  intro p hp
  simp only [SplitBundledTasks, he, Bool.false_eq_true, if_neg, ite_false,
    List.mem_map] at hp
  obtain ⟨b, _, hpe⟩ := hp
  subst hpe
  exact ⟨rfl, le_max_left 1 _⟩

/-- Sample bundled task: when invoked with fan-out `f` it enqueues `f`
subtasks. -/
def sampleBundled (n : Nat) : BundledTask :=
  { id := n, gen := fun f => List.replicate f (some n) }

/-- Sample dispatcher state: 2 workers, 3 pending bundled tasks, so a split
pass hands every one of them fan-out `max 1 (2 / 3) = 1`. -/
def sampleState3 : AsyncWorkQueue :=
  { worker_threads := 2, task_queue := [],
    bundled_task_queue := [sampleBundled 7, sampleBundled 8, sampleBundled 9] }

/-- Witness for C1 at a concrete state with more bundled tasks than
workers. -/
theorem split_fan_out_witness :
    (SplitBundledTasks sampleState3).invocations =
      sampleState3.bundled_task_queue.map
        (fun b =>
          (b.id,
            max 1 (sampleState3.worker_threads /
              sampleState3.bundled_task_queue.length))) ∧
    ∀ p ∈ (SplitBundledTasks sampleState3).invocations,
      p.2 = max 1 (sampleState3.worker_threads /
        sampleState3.bundled_task_queue.length) ∧
      1 ≤ p.2 :=
  split_fan_out sampleState3 (by simp [sampleState3])

/-- C2: a split pass swaps the entire bundle queue into a local list (leaving
the shared queue empty), invokes each swapped-out bundled task exactly once
in original enqueue order, and is a state-preserving no-op that invokes
nothing when the bundle queue is already empty. -/
theorem split_swap_and_invoke_in_order (s : AsyncWorkQueue) :
    (SplitBundledTasks s).state.bundled_task_queue = [] ∧
    (SplitBundledTasks s).invocations.map Prod.fst =
      s.bundled_task_queue.map BundledTask.id ∧
    (s.bundled_task_queue = [] →
      SplitBundledTasks s = { state := s, invocations := [] }) := by
  by_cases h : s.bundled_task_queue = []
  · refine ⟨?_, ?_, fun _ => ?_⟩ <;> simp [SplitBundledTasks, h]
  · have he : s.bundled_task_queue.isEmpty = false := by simp [h]
    refine ⟨?_, ?_, fun hc => absurd hc h⟩
    · simp [SplitBundledTasks, he, foldl_invokeBundled_bundled]
    · simp [SplitBundledTasks, he, List.map_map, Function.comp]

/-- C3: under any interleaving of concurrent `AddBundledTask` calls and
concurrent split passes, every enqueued bundled task is invoked at most
once. -/
theorem bundled_invoked_at_most_once (s : ConcState) (h : ConcReachable s)
    (t : Nat) : s.invoked.count t ≤ 1 := by
  obtain ⟨h1, h2⟩ := concInv_reachable h t
  have hocc : s.invoked.count t ≤ occ s t := by
    unfold occ
    rw [List.count_append, List.count_append]
    omega
  omega

/-- Witness for C3: the state reached by enqueueing bundled task 0, swapping
it out in a split pass and invoking it; the invocation log holds it once. -/
theorem bundled_invoked_at_most_once_witness :
    List.count 0
      (ConcState.invoked
        { bundle := [], locals := [[]], invoked := [0], enqueued := [0] }) ≤
      1 :=
  bundled_invoked_at_most_once
    { bundle := [], locals := [[]], invoked := [0], enqueued := [0] }
    (Relation.ReflTransGen.tail
      (Relation.ReflTransGen.tail
        (Relation.ReflTransGen.tail Relation.ReflTransGen.refl
          (ConcStep.addBundled ConcState.init 0 (by simp [ConcState.init])))
        (ConcStep.swapNonempty _ (by simp [ConcState.init])))
      (ConcStep.invokeFront _ [] [] 0 [] (by simp [ConcState.init])))
    0

/-- C4: for `n ≥ 1`, `Initialize n` on a dispatcher with no workers succeeds
and `WorkerCount` then returns exactly `n`; a subsequent `Initialize m` with
`m ≥ 1` is a silent no-op: it succeeds, changes no state, and `WorkerCount`
still returns `n`. -/
theorem initialize_idempotent (n m : Nat) (s : AsyncWorkQueue) (hn : 1 ≤ n)
    (hm : 1 ≤ m) (h0 : s.worker_threads = 0) :
    (Initialize n s).1 = Status.Success ∧
    WorkerCount (Initialize n s).2 = n ∧
    (Initialize m (Initialize n s).2).1 = Status.Success ∧
    (Initialize m (Initialize n s).2).2 = (Initialize n s).2 ∧
    WorkerCount (Initialize m (Initialize n s).2).2 = n := by
  have hn' : ¬ n < 1 := by omega
  have hm' : ¬ m < 1 := by omega
  have hnz : n ≠ 0 := by omega
  simp [Initialize, WorkerCount, hn', hm', hnz, h0]

/-- Witness for C4: `Initialize 3` then `Initialize 5` on the fresh
dispatcher leaves exactly 3 workers. -/
theorem initialize_idempotent_witness :
    (Initialize 3 AsyncWorkQueue.initial).1 = Status.Success ∧
    WorkerCount (Initialize 3 AsyncWorkQueue.initial).2 = 3 ∧
    (Initialize 5 (Initialize 3 AsyncWorkQueue.initial).2).1 =
      Status.Success ∧
    (Initialize 5 (Initialize 3 AsyncWorkQueue.initial).2).2 =
      (Initialize 3 AsyncWorkQueue.initial).2 ∧
    WorkerCount (Initialize 5 (Initialize 3 AsyncWorkQueue.initial).2).2 =
      3 :=
  initialize_idempotent 3 5 AsyncWorkQueue.initial (by decide) (by decide)
    rfl

/-- C5: for every `worker_count < 1` of the argument type `size_t` (that is,
`worker_count = 0`; the unsigned type has no negative values), `Initialize`
fails with `INVALID_ARG`, changes no state, and `WorkerCount` stays 0 when it
was 0. -/
theorem initialize_rejects_zero (worker_count : Nat) (s : AsyncWorkQueue)
    (h : worker_count < 1) :
    (Initialize worker_count s).1.code = StatusCode.INVALID_ARG ∧
    (Initialize worker_count s).2 = s ∧
    (s.worker_threads = 0 → WorkerCount (Initialize worker_count s).2 = 0) := by
  refine ⟨?_, ?_, fun h0 => ?_⟩ <;> simp [Initialize, WorkerCount, h]
  exact h0

/-- Witness for C5: `Initialize 0` on the fresh dispatcher. -/
theorem initialize_rejects_zero_witness :
    (Initialize 0 AsyncWorkQueue.initial).1.code = StatusCode.INVALID_ARG ∧
    (Initialize 0 AsyncWorkQueue.initial).2 = AsyncWorkQueue.initial ∧
    (AsyncWorkQueue.initial.worker_threads = 0 →
      WorkerCount (Initialize 0 AsyncWorkQueue.initial).2 = 0) :=
  initialize_rejects_zero 0 AsyncWorkQueue.initial (by decide)

/-- C6: with no workers initialized, both `AddTask` and `AddBundledTask`
fail with `UNAVAILABLE` and leave the whole state (both queues) unchanged;
with workers present, `AddTask` succeeds and appends the task to the back of
the ready queue. -/
theorem add_requires_workers (tk : ReadyItem) (b : BundledTask)
    (s : AsyncWorkQueue) :
    (s.worker_threads = 0 →
      (AddTask tk s).1.code = StatusCode.UNAVAILABLE ∧
      (AddTask tk s).2 = s ∧
      (AddBundledTask b s).status.code = StatusCode.UNAVAILABLE ∧
      (AddBundledTask b s).state = s) ∧
    (s.worker_threads ≠ 0 →
      (AddTask tk s).1 = Status.Success ∧
      (AddTask tk s).2 = { s with task_queue := s.task_queue ++ [tk] }) := by
  constructor
  · intro h0
    refine ⟨?_, ?_, ?_, ?_⟩ <;> simp [AddTask, AddBundledTask, h0]
  · intro h0
    constructor <;> simp [AddTask, h0]

/-- Witness for C6 on the fresh (worker-less) dispatcher. -/
theorem add_requires_workers_witness :
    (AsyncWorkQueue.initial.worker_threads = 0 →
      (AddTask (some 1) AsyncWorkQueue.initial).1.code =
        StatusCode.UNAVAILABLE ∧
      (AddTask (some 1) AsyncWorkQueue.initial).2 = AsyncWorkQueue.initial ∧
      (AddBundledTask (sampleBundled 1) AsyncWorkQueue.initial).status.code =
        StatusCode.UNAVAILABLE ∧
      (AddBundledTask (sampleBundled 1) AsyncWorkQueue.initial).state =
        AsyncWorkQueue.initial) ∧
    (AsyncWorkQueue.initial.worker_threads ≠ 0 →
      (AddTask (some 1) AsyncWorkQueue.initial).1 = Status.Success ∧
      (AddTask (some 1) AsyncWorkQueue.initial).2 =
        { AsyncWorkQueue.initial with
          task_queue := AsyncWorkQueue.initial.task_queue ++ [some 1] }) :=
  add_requires_workers (some 1) (sampleBundled 1) AsyncWorkQueue.initial

/-- C7: a successful `AddBundledTask` first appends the task to the back of
the bundle queue, then triggers an immediate split pass on the calling thread
if and only if the ready queue is observed empty; otherwise no split pass is
triggered and the bundled task stays queued. -/
theorem addBundled_append_then_split (b : BundledTask) (s : AsyncWorkQueue)
    (h : s.worker_threads ≠ 0) :
    (AddBundledTask b s).status = Status.Success ∧
    ((AddBundledTask b s).split_done = true ↔ s.task_queue = []) ∧
    (s.task_queue = [] →
      AddBundledTask b s =
        { status := Status.Success,
          state := (SplitBundledTasks
            { s with
              bundled_task_queue := s.bundled_task_queue ++ [b] }).state,
          split_done := true,
          invocations := (SplitBundledTasks
            { s with
              bundled_task_queue :=
                s.bundled_task_queue ++ [b] }).invocations }) ∧
    (s.task_queue ≠ [] →
      AddBundledTask b s =
        { status := Status.Success,
          state := { s with
            bundled_task_queue := s.bundled_task_queue ++ [b] },
          split_done := false, invocations := [] }) := by
  by_cases hq : s.task_queue = []
  · refine ⟨?_, ?_, fun _ => ?_, fun hc => absurd hq hc⟩ <;>
      simp [AddBundledTask, h, hq]
  · refine ⟨?_, ?_, fun hc => absurd hc hq, fun _ => ?_⟩ <;>
      simp [AddBundledTask, h, hq]

/-- Sample dispatcher state with workers and an empty ready queue. -/
def sampleReadyState : AsyncWorkQueue :=
  { worker_threads := 4, task_queue := [], bundled_task_queue := [] }

/-- Witness for C7: adding a bundled task while the ready queue is empty
triggers the split pass. -/
theorem addBundled_append_then_split_witness :
    (AddBundledTask (sampleBundled 5) sampleReadyState).status =
      Status.Success ∧
    ((AddBundledTask (sampleBundled 5) sampleReadyState).split_done = true ↔
      sampleReadyState.task_queue = []) ∧
    (sampleReadyState.task_queue = [] →
      AddBundledTask (sampleBundled 5) sampleReadyState =
        { status := Status.Success,
          state := (SplitBundledTasks
            { sampleReadyState with
              bundled_task_queue :=
                sampleReadyState.bundled_task_queue ++
                  [sampleBundled 5] }).state,
          split_done := true,
          invocations := (SplitBundledTasks
            { sampleReadyState with
              bundled_task_queue :=
                sampleReadyState.bundled_task_queue ++
                  [sampleBundled 5] }).invocations }) ∧
    (sampleReadyState.task_queue ≠ [] →
      AddBundledTask (sampleBundled 5) sampleReadyState =
        { status := Status.Success,
          state := { sampleReadyState with
            bundled_task_queue :=
              sampleReadyState.bundled_task_queue ++ [sampleBundled 5] },
          split_done := false, invocations := [] }) :=
  addBundled_append_then_split (sampleBundled 5) sampleReadyState
    (by simp [sampleReadyState])

/-- C8: on destruction, exactly one shutdown sentinel (null callable) per
owned worker thread is pushed onto the ready queue; a worker that dequeues a
sentinel exits its loop immediately, executing no task afterward (the
remaining trace yields an empty execution list and stops with the sentinel
consumed). -/
theorem shutdown_one_sentinel_per_worker (s sq : AsyncWorkQueue) (fuel : Nat)
    (rest : List ReadyItem) (hq : sq.task_queue = none :: rest) :
    (destructor s).task_queue =
      s.task_queue ++ List.replicate (WorkerCount s) none ∧
    WorkThread (fuel + 1) sq = ([], { sq with task_queue := rest }) := by
  refine ⟨rfl, ?_⟩
  simp [WorkThread, hq]

/-- Sample state whose ready queue front is the shutdown sentinel. -/
def sampleSentinelState : AsyncWorkQueue :=
  { worker_threads := 2, task_queue := [none, some 3],
    bundled_task_queue := [] }

/-- Witness for C8 at a 2-worker dispatcher whose ready queue front is a
sentinel. -/
theorem shutdown_one_sentinel_per_worker_witness :
    (destructor sampleReadyState).task_queue =
      sampleReadyState.task_queue ++
        List.replicate (WorkerCount sampleReadyState) none ∧
    WorkThread (5 + 1) sampleSentinelState =
      ([], { sampleSentinelState with task_queue := [some 3] }) :=
  shutdown_one_sentinel_per_worker sampleReadyState sampleSentinelState 5
    [some 3] rfl

/-- C9: after initialization, `AddTask` accepts a null callable and returns
success, pushing onto the ready queue the very value `none` that also models
the shutdown sentinel; the worker that dequeues it terminates its loop
instead of executing a task. -/
theorem null_task_acts_as_sentinel (s : AsyncWorkQueue)
    (h : s.worker_threads ≠ 0) :
    (AddTask none s).1 = Status.Success ∧
    (AddTask none s).2.task_queue = s.task_queue ++ [none] ∧
    (∀ (fuel : Nat) (sq : AsyncWorkQueue) (rest : List ReadyItem),
      sq.task_queue = none :: rest →
      WorkThread (fuel + 1) sq = ([], { sq with task_queue := rest })) := by
  refine ⟨?_, ?_, fun fuel sq rest hq => ?_⟩
  · simp [AddTask, h]
  · simp [AddTask, h]
  · simp [WorkThread, hq]

/-- Witness for C9: a null callable added to a running dispatcher, and the
worker trace that dequeues it. -/
theorem null_task_acts_as_sentinel_witness :
    (AddTask none sampleReadyState).1 = Status.Success ∧
    (AddTask none sampleReadyState).2.task_queue =
      sampleReadyState.task_queue ++ [none] ∧
    (∀ (fuel : Nat) (sq : AsyncWorkQueue) (rest : List ReadyItem),
      sq.task_queue = none :: rest →
      WorkThread (fuel + 1) sq = ([], { sq with task_queue := rest })) :=
  null_task_acts_as_sentinel sampleReadyState (by simp [sampleReadyState])

/-- C10: `Initialize` returns either success or `INVALID_ARG`; it never
returns `UNAVAILABLE`, although the `Status` result type admits it. -/
theorem initialize_never_unavailable (worker_count : Nat)
    (s : AsyncWorkQueue) :
    ((Initialize worker_count s).1.code = StatusCode.SUCCESS ∨
      (Initialize worker_count s).1.code = StatusCode.INVALID_ARG) ∧
    (Initialize worker_count s).1.code ≠ StatusCode.UNAVAILABLE := by
  unfold Initialize
  split
  · simp
  · split <;> simp [Status.Success]

end InferenceServer
